import Mathlib

/-!
Verification of the Gaea proxy session engine (Go sources: proxy/server
session/manager/executor files) against its natural-language specification.

The Go code is shallowly embedded: pure branching logic becomes Lean
functions, stateful methods become explicit state-passing functions, Go
maps become association lists with unique keys, machine integers become
Nat with explicit reduction modulo 2^32 where Go overflow semantics
matter, and fallible operations return Except/Option.  External
collaborators that the embedded code merely calls (password hash
functions, the plan executor, the backend pool) are passed in as function
parameters so every definition stays executable.
-/

namespace Gaea

/-! ## MySQL protocol constants

Standard MySQL server status bits used by the embedded code
(mysql.ServerStatusInTrans, mysql.ServerStatusAutocommit,
mysql.ServerMoreResultsExists from the mysql package). -/

def ServerStatusInTrans : Nat := 0x0001

def ServerStatusAutocommit : Nat := 0x0002

def ServerMoreResultsExists : Nat := 0x0008

/-! ## QPS admission gate (executor_handle.go, handleQuery lines 73-90)

The limiter is external (token bucket); a single request consults
`limiter.Allow()` at most once on every control path, so its outcome is
modelled by one boolean `allow` (`allow = false` means the bucket is
empty).  `clientQPSLimit` is a Go int. -/

/-- Outcome of the QPS-limit check at the top of handleQuery: either the
error ErrClientQpsLimited wrapped as a session-close error, the plain
ErrClientQpsLimited error, or fall-through to actual query execution. -/
inductive QpsOutcome where
  | sessionCloseErr
  | plainErr
  | executed
deriving DecidableEq, Repr

/-- Embedding of the QPS branch of SessionExecutor.handleQuery
(executor_handle.go lines 73-90): first branch fires when
clientQPSLimit > 0 and supportLimitTx and the bucket is empty, and then
distinguishes in-transaction (session-close error) from
non-transaction (plain error); the second branch fires when
clientQPSLimit > 0, supportLimitTx is false, the session is not in a
transaction and the bucket is empty; otherwise the query executes. -/
def handleQueryQpsGate (clientQPSLimit : Int) (supportLimitTx inTx allow : Bool) :
    QpsOutcome :=
  if clientQPSLimit > 0 && supportLimitTx && !allow then
    if inTx then .sessionCloseErr else .plainErr
  else if clientQPSLimit > 0 && !supportLimitTx && !inTx && !allow then
    .plainErr
  else
    .executed

/-! ## Client connection cap (session.go, clientConnectionReachLimit lines 94-110
and Handshake lines 169-175)

The per-namespace counter lives in a concurrent map
`statistics.clientConnecions`; a missing entry means this is the first
connection of the namespace.  `maxClientConnections` is a Go int and the
counter an int32, both modelled as Int. -/

/-- Embedding of Session.clientConnectionReachLimit: a missing counter
entry yields (false, 0); otherwise the loaded value is compared with the
current namespace's maxClientConnections. -/
def clientConnectionReachLimit (counter : Option Int) (maxClientConnections : Int) :
    Bool × Int :=
  match counter with
  | none => (false, 0)
  | some v => if v ≥ maxClientConnections then (true, v) else (false, v)

/-- Result of the connection-cap stage of Session.Handshake: either the
handshake is rejected with mysql.ErrConCount or it proceeds to writeOK. -/
inductive CapCheckResult where
  | errConCount
  | proceed
deriving DecidableEq, Repr

/-- Embedding of the connection-cap check inside Session.Handshake
(session.go lines 169-175): if clientConnectionReachLimit reports true the
handshake fails with mysql.ErrConCount, otherwise it continues. -/
def handshakeCapStage (counter : Option Int) (maxClientConnections : Int) :
    CapCheckResult :=
  if (clientConnectionReachLimit counter maxClientConnections).1 then
    .errConCount
  else
    .proceed

/-! ## Association lists for Go maps

Go maps are embedded as association lists with unique keys; `alistInsert`
replaces an existing binding in place, like a Go map assignment.  Go map
iteration order is unspecified; folds below visit entries in list order,
which is one admissible order. -/

/-- Lookup in an association list, the Go `m[k]` two-result form. -/
def alistLookup {α : Type} (m : List (String × α)) (k : String) : Option α :=
  match m with
  | [] => none
  | kv :: rest => if kv.1 == k then some kv.2 else alistLookup rest k

/-- Go map assignment `m[k] = v`: replace the binding if the key exists,
append it otherwise. -/
def alistInsert {α : Type} (m : List (String × α)) (k : String) (v : α) :
    List (String × α) :=
  match m with
  | [] => [(k, v)]
  | kv :: rest => if kv.1 == k then (k, v) :: rest else kv :: alistInsert rest k v

/-- Go `delete(m, k)`. -/
def alistDelete {α : Type} (m : List (String × α)) (k : String) :
    List (String × α) :=
  match m with
  | [] => []
  | kv :: rest => if kv.1 == k then rest else kv :: alistDelete rest k

/-! ## Backend connection events

Backend pooled connections are external; the embedding identifies each by
a numeric id and records the calls made on it as an event trace. -/

/-- Calls issued on pooled backend connections, in program order. -/
inductive ConnEvent where
  | setAutoCommit (id : Nat) (ok : Bool)
  | recycle (id : Nat)
  | close (id : Nat)
deriving DecidableEq, Repr

/-! ## SET autocommit (executor_handle.go, handleSetAutoCommit lines 528-549)

Only the fields handleSetAutoCommit touches are modelled: the uint16
status bitmask and the txConns map (slice name to backend connection id).
`pc.SetAutoCommit(1)` is a backend round-trip whose success is supplied by
the parameter `setACOk`; on failure the Go code records the error but
still recycles the connection and keeps going. -/

/-- Transaction-related slice of SessionExecutor state. -/
structure ExecTxState where
  status : Nat
  txConns : List (String × Nat)
deriving DecidableEq, Repr

/-- Embedding of SessionExecutor.handleSetAutoCommit.  Returns the new
state, the trace of backend-connection calls, and whether any
SetAutoCommit round-trip reported an error.  For autocommit=true: set the
AUTOCOMMIT bit, clear IN_TRANS when set (Go `status &= ^ServerStatusInTrans`
on a uint16 is `&&& 0xFFFE`), then SetAutoCommit(1) and Recycle every
txConns entry and replace txConns with a fresh empty map.  For
autocommit=false: only clear the AUTOCOMMIT bit (uint16 mask 0xFFFD). -/
def handleSetAutoCommit (setACOk : Nat → Bool) (se : ExecTxState)
    (autocommit : Bool) : ExecTxState × List ConnEvent × Bool :=
  if autocommit then
    let st1 := se.status ||| ServerStatusAutocommit
    let st2 := if st1 &&& ServerStatusInTrans > 0 then st1 &&& 0xFFFE else st1
    let events := se.txConns.foldr
      (fun kv acc => ConnEvent.setAutoCommit kv.2 (setACOk kv.2) :: ConnEvent.recycle kv.2 :: acc) []
    (⟨st2, []⟩, events, se.txConns.any fun kv => !(setACOk kv.2))
  else
    (⟨se.status &&& 0xFFFD, se.txConns⟩, [], false)

/-! ## Session close (session.go, Close / IsClosed lines 241-260)

Session.Close first consults the atomic `closed` flag and returns at once
when it is already set; otherwise it sets the flag, rolls back via the
executor, runs the keep-session quit cleanup, and closes the client
socket.  executor.rollback and executor.handleKsQuit live in the executor
file and act only on executor-owned state, so they are passed in as
functions on an abstract executor state type. -/

/-- The session fields Close touches: the closed flag, the executor
state, and whether the client socket has been closed. -/
structure SessionM (α : Type) where
  closed : Bool
  exec : α
  socketClosed : Bool
deriving DecidableEq, Repr

/-- Steps performed by a non-trivial Session.Close, in program order. -/
inductive CloseEvent where
  | rolledBack
  | ksQuit
  | socketClosed
deriving DecidableEq, Repr

/-- Embedding of Session.IsClosed. -/
def SessionM.IsClosed {α : Type} (s : SessionM α) : Bool := s.closed

/-- Embedding of Session.Close: early return when already closed, else
store closed=true, then executor.rollback, then executor.handleKsQuit,
then close the client socket. -/
def SessionM.Close {α : Type} (rollback ksQuit : α → α) (s : SessionM α) :
    SessionM α × List CloseEvent :=
  if s.closed then (s, [])
  else
    let s1 : SessionM α := { s with closed := true }
    let e1 := rollback s1.exec
    let e2 := ksQuit e1
    ({ s1 with exec := e2, socketClosed := true },
     [CloseEvent.rolledBack, CloseEvent.ksQuit, CloseEvent.socketClosed])

/-! ## UserManager (manager.go lines 1014-1143)

Two maps: `users` from user name to the list of that user's passwords,
and `userNamespaces` from the string `user + ":" + password` to the
namespace name.  The three password checks walk the user's password list
in order; the actual hash computations (mysql.CalcPassword,
mysql.CheckHashPassword, mysql.CalcCachingSha2Password) are external to
the embedded files and are supplied as parameters, with byte slices
modelled as lists of naturals. -/

/-- Embedding of the UserManager struct. -/
structure UserManagerM where
  users : List (String × List String)
  userNamespaces : List (String × String)
deriving DecidableEq, Repr

/-- Embedding of getUserKey. -/
def getUserKey (username password : String) : String :=
  username ++ ":" ++ password

/-- Split a character list at every colon, the semantics of Go
strings.Split(s, ":"): n separators yield n+1 pieces, the empty string
yields one empty piece. -/
def splitOnColonChars : List Char → List (List Char)
  | [] => [[]]
  | c :: rest =>
    if c == ':' then [] :: splitOnColonChars rest
    else
      match splitOnColonChars rest with
      | [] => [[c]]
      | piece :: pieces => (c :: piece) :: pieces

/-- Go strings.Split(s, ":") over a String. -/
def splitOnColon (s : String) : List String :=
  (splitOnColonChars s.data).map (fun cs => String.mk cs)

/-- Embedding of getUserAndPasswordFromKey: strings.Split on ":" and take
elements 0 and 1.  Keys built by getUserKey always contain a colon; for
other keys Go would panic on strs[1], modelled by the empty-string
default. -/
def getUserAndPasswordFromKey (key : String) : String × String :=
  let strs := splitOnColon key
  (strs.getD 0 "", strs.getD 1 "")

/-- Embedding of UserManager.CheckUser: key presence in the users map
(a user whose password list has become nil still counts as present). -/
def UserManagerM.CheckUser (u : UserManagerM) (user : String) : Bool :=
  (alistLookup u.users user).isSome

/-- Walk a password list and return (true, firstMatching) or (false, ""),
the shared shape of the three UserManager password checks. -/
def firstPasswordMatch (accept : String → Bool) : List String → Bool × String
  | [] => (false, "")
  | p :: rest => if accept p then (true, p) else firstPasswordMatch accept rest

/-- Embedding of UserManager.CheckPassword: classic mysql_native_password,
comparing auth against calcPassword(salt, password) for each stored
password. -/
def UserManagerM.CheckPassword (calcPassword : List Nat → String → List Nat)
    (u : UserManagerM) (user : String) (salt auth : List Nat) : Bool × String :=
  firstPasswordMatch (fun p => auth == calcPassword salt p)
    ((alistLookup u.users user).getD [])

/-- Embedding of UserManager.CheckHashPassword: only passwords that start
with a star and have length 41 are eligible; the stored hash (password
minus the leading star) is checked against auth and salt by the external
mysql.CheckHashPassword. -/
def UserManagerM.CheckHashPassword (checkHash : List Nat → List Nat → String → Bool)
    (u : UserManagerM) (user : String) (salt auth : List Nat) : Bool × String :=
  firstPasswordMatch
    (fun p => p.startsWith "*" && p.length == 41 && checkHash auth salt (p.drop 1))
    ((alistLookup u.users user).getD [])

/-- Embedding of UserManager.CheckSha2Password: caching_sha2_password,
comparing auth against calcCachingSha2(salt, password). -/
def UserManagerM.CheckSha2Password (calcCachingSha2 : List Nat → String → List Nat)
    (u : UserManagerM) (user : String) (salt auth : List Nat) : Bool × String :=
  firstPasswordMatch (fun p => auth == calcCachingSha2 salt p)
    ((alistLookup u.users user).getD [])

/-- Embedding of UserManager.GetNamespaceByUser: look the key up in
userNamespaces, empty string when absent. -/
def UserManagerM.GetNamespaceByUser (u : UserManagerM) (userName password : String) :
    String :=
  (alistLookup u.userNamespaces (getUserKey userName password)).getD ""

/-- Embedding of UserManager.addNamespaceUsers: for each configured
(user, password) pair, point the key at the namespace and append the
password to the user's password list. -/
def UserManagerM.addNamespaceUsers (u : UserManagerM) (nsName : String)
    (nsUsers : List (String × String)) : UserManagerM :=
  nsUsers.foldl
    (fun acc user =>
      ⟨alistInsert acc.users user.1 (((alistLookup acc.users user.1).getD []) ++ [user.2]),
       alistInsert acc.userNamespaces (getUserKey user.1 user.2) nsName⟩)
    u

/-- One pass of the password-removal loop inside ClearNamespaceUsers,
reproducing the Go slice semantics of
`s = append(u.users[username][:i], u.users[username][i+1:]...)`:
the append writes through the shared backing array, so after a match at
index i the live slice contents become
`take i ++ drop (i+1) ++ [last]` (length unchanged) while `s` receives the
length-reduced value; subsequent iterations compare against the mutated
contents.  Arguments: the remaining iteration count, the current index,
the live slice contents, and the latest value of `s` (none is Go nil). -/
def clearPwdLoopAux (password : String) :
    Nat → Nat → List String → Option (List String) → Option (List String)
  | 0, _, _, s => s
  | n + 1, i, arr, s =>
    if arr.getD i "" == password then
      let removed := arr.take i ++ arr.drop (i + 1)
      clearPwdLoopAux password n (i + 1) (removed ++ [arr.getLastD ""]) (some removed)
    else
      clearPwdLoopAux password n (i + 1) arr s

/-- The value assigned to u.users[username] by the removal loop in
ClearNamespaceUsers: `var s []string` starts nil, and nil (modelled as
the empty list, equivalent for every later read) is kept when no index
matches. -/
def clearUserPwds (pwds : List String) (password : String) : List String :=
  (clearPwdLoopAux password pwds.length 0 pwds none).getD []

/-- Embedding of UserManager.ClearNamespaceUsers (manager.go lines
1058-1075): for every userNamespaces entry pointing at the namespace,
delete the entry, split the key into user and password with
getUserAndPasswordFromKey, and reassign that user's password list to the
result of the removal loop.  Entries are visited once each, in list
order (Go map order is unspecified). -/
def UserManagerM.ClearNamespaceUsers (u : UserManagerM) (nsName : String) :
    UserManagerM :=
  u.userNamespaces.foldl
    (fun acc kv =>
      if kv.2 == nsName then
        let acc1 : UserManagerM := ⟨acc.users, alistDelete acc.userNamespaces kv.1⟩
        let up := getUserAndPasswordFromKey kv.1
        let s := clearUserPwds ((alistLookup acc1.users up.1).getD []) up.2
        ⟨alistInsert acc1.users up.1 s, acc1.userNamespaces⟩
      else acc)
    u

/-- Embedding of UserManager.RebuildNamespaceUsers: clear then re-add the
namespace's configured users. -/
def UserManagerM.RebuildNamespaceUsers (u : UserManagerM) (nsName : String)
    (nsUsers : List (String × String)) : UserManagerM :=
  (u.ClearNamespaceUsers nsName).addNamespaceUsers nsName nsUsers

/-! ## Handshake authentication (session.go, handleHandshakeResponse lines 186-239)

Only the user-existence check and the password-scheme cascade are
embedded; the later collation and namespace assignment steps are not part
of the claims over this function. -/

/-- The mysql.CachingSHA2Password plugin name. -/
def CachingSHA2Password : String := "caching_sha2_password"

/-- The external password-hash primitives consumed by the checks. -/
structure AuthFns where
  calcPassword : List Nat → String → List Nat
  checkHash : List Nat → List Nat → String → Bool
  calcCachingSha2 : List Nat → String → List Nat

/-- Outcome of the authentication part of handleHandshakeResponse. -/
inductive AuthOutcome where
  | accessDenied
  | accepted (password : String)
deriving DecidableEq, Repr

/-- Embedding of the authentication cascade of
Session.handleHandshakeResponse: unknown user fails at once; an empty
auth-plugin field selects the SHA-256 check for 32-byte auth responses
and otherwise tries the native-hash check with a fallback to the classic
check; the caching_sha2_password plugin selects the SHA-256 check; any
other plugin value selects the classic check; a failed check yields
ACCESS_DENIED. -/
def handleHandshakeAuth (fns : AuthFns) (u : UserManagerM)
    (user plugin : String) (salt auth : List Nat) : AuthOutcome :=
  if !(u.CheckUser user) then .accessDenied
  else
    let res :=
      if plugin.length == 0 then
        if auth.length == 32 then
          u.CheckSha2Password fns.calcCachingSha2 user salt auth
        else
          let r := u.CheckHashPassword fns.checkHash user salt auth
          if !r.1 then u.CheckPassword fns.calcPassword user salt auth else r
      else if plugin == CachingSHA2Password then
        u.CheckSha2Password fns.calcCachingSha2 user salt auth
      else
        u.CheckPassword fns.calcPassword user salt auth
    if !res.1 then .accessDenied else .accepted res.2

/-- Restatement of the specified authentication contract in the spec's
own terms, for comparison with the embedded code: select the ordered list
of schemes dictated by the plugin field and auth length, try them in
order, and answer ACCESS_DENIED when the user is unknown or no scheme
accepts. -/
def authContract (fns : AuthFns) (u : UserManagerM)
    (user plugin : String) (salt auth : List Nat) : AuthOutcome :=
  if !(u.CheckUser user) then .accessDenied
  else
    let attempts : List (Bool × String) :=
      if plugin == "" && auth.length == 32 then
        [u.CheckSha2Password fns.calcCachingSha2 user salt auth]
      else if plugin == "" then
        [u.CheckHashPassword fns.checkHash user salt auth,
         u.CheckPassword fns.calcPassword user salt auth]
      else if plugin == CachingSHA2Password then
        [u.CheckSha2Password fns.calcCachingSha2 user salt auth]
      else
        [u.CheckPassword fns.calcPassword user salt auth]
    match attempts.find? (fun r => r.1) with
    | some r => .accepted r.2
    | none => .accessDenied

/-! ## Namespace registry and hot reload (manager.go lines 559-708)

The Manager keeps two NamespaceManager slots and two UserManager slots
selected by a boolean switch index, plus the reloadPrepared CAS flag.
Only the namespace name and change index matter to the reload claims, so
a Namespace is embedded as those two fields; `namespaceChangeIndex` is a
Go uint32, so the increment in ReloadNamespacePrepare reduces modulo
2^32. -/

/-- The uint32 modulus. -/
def uint32Mod : Nat := 4294967296

/-- The reload-relevant slice of a Namespace. -/
structure NamespaceM where
  name : String
  namespaceChangeIndex : Nat
deriving DecidableEq, Repr

/-- The parts of a models.Namespace configuration that reach the
embedded reload and user-manager code: the name and the configured
(user, password) pairs. -/
structure NamespaceConfig where
  name : String
  users : List (String × String)
deriving DecidableEq, Repr

/-- Modelled from the spec: NewNamespace (namespace construction lives in
a file outside the embedded set) builds an immutable namespace from its
configuration; the change index starts at the Go zero value and is
overwritten by ReloadNamespacePrepare. -/
def newNamespace (cfg : NamespaceConfig) : NamespaceM :=
  ⟨cfg.name, 0⟩

/-- Embedding of the Manager struct: reloadPrepared flag, boolean switch
index and the two namespace/user slots.  Modelled from the spec for
util.BoolIndex (not in the embedded set): the bool selects the readable
slot, Get returns (current, other, index) and Set stores a new index. -/
structure ManagerM where
  reloadPrepared : Bool
  switchIndex : Bool
  namespaces0 : List (String × NamespaceM)
  namespaces1 : List (String × NamespaceM)
  users0 : UserManagerM
  users1 : UserManagerM
deriving DecidableEq, Repr

/-- The readable (current) namespace slot, slots[active]. -/
def ManagerM.currentNamespaces (m : ManagerM) : List (String × NamespaceM) :=
  if m.switchIndex then m.namespaces1 else m.namespaces0

/-- The writable (other) slot is filled by this update, slots[1-active]. -/
def ManagerM.setOtherNamespaces (m : ManagerM) (ns : List (String × NamespaceM)) :
    ManagerM :=
  if m.switchIndex then { m with namespaces0 := ns } else { m with namespaces1 := ns }

/-- The readable (current) user slot. -/
def ManagerM.currentUsers (m : ManagerM) : UserManagerM :=
  if m.switchIndex then m.users1 else m.users0

/-- Fill the writable (other) user slot. -/
def ManagerM.setOtherUsers (m : ManagerM) (u : UserManagerM) : ManagerM :=
  if m.switchIndex then { m with users0 := u } else { m with users1 := u }

/-- Embedding of Manager.GetNamespace: resolve against the current slot,
none for a missing namespace (Go nil). -/
def ManagerM.GetNamespace (m : ManagerM) (name : String) : Option NamespaceM :=
  alistLookup m.currentNamespaces name

/-- Embedding of Manager.ReloadNamespacePrepare: read the old change
index from the current slot (zero when the namespace is absent), shallow
copy the current NamespaceManager, rebuild the namespace from the config,
overwrite its change index with old+1 (uint32 arithmetic), store the
result in the other namespace slot; clone the current UserManager,
rebuild the namespace's users, store it in the other user slot; set
reloadPrepared.  Namespace construction is total here (its failure paths
concern router building, outside the embedded claims). -/
def ManagerM.ReloadNamespacePrepare (m : ManagerM) (cfg : NamespaceConfig) :
    ManagerM :=
  let cur := m.currentNamespaces
  let nsChangeIndexOld :=
    match alistLookup cur cfg.name with
    | some nsOld => nsOld.namespaceChangeIndex
    | none => 0
  let rebuilt := alistInsert cur cfg.name
    { newNamespace cfg with namespaceChangeIndex := (nsChangeIndexOld + 1) % uint32Mod }
  let newUsers := (m.currentUsers.RebuildNamespaceUsers cfg.name cfg.users)
  { (m.setOtherNamespaces rebuilt).setOtherUsers newUsers with reloadPrepared := true }

/-- Error answered when commit finds no outstanding prepare
(errors.ErrNamespaceNotPrepared). -/
inductive ReloadErr where
  | notPrepared
deriving DecidableEq, Repr

/-- Embedding of Manager.ReloadNamespaceCommit: CAS reloadPrepared from
true to false, answering ErrNamespaceNotPrepared and leaving the state
untouched when the flag is down; on success spawn the delayed close of
the replaced namespace (a background pool drain with no effect on the
registry state) and flip the switch index. -/
def ManagerM.ReloadNamespaceCommit (m : ManagerM) (name : String) :
    Except ReloadErr Unit × ManagerM :=
  if !m.reloadPrepared then (.error .notPrepared, m)
  else
    let m1 := { m with reloadPrepared := false }
    let _oldToClose := m1.GetNamespace name
    (.ok (), { m1 with switchIndex := !m1.switchIndex })

/-- A prepare immediately followed by a commit of the same namespace, the
sequence the reload claims quantify over. -/
def ManagerM.reloadStep (m : ManagerM) (cfg : NamespaceConfig) : ManagerM :=
  ((m.ReloadNamespacePrepare cfg).ReloadNamespaceCommit cfg.name).2

/-- The change index a session reads for a namespace through the current
slot; zero when the namespace is absent, matching the nsChangeIndexOld
computation in ReloadNamespacePrepare. -/
def ManagerM.changeIndexOf (m : ManagerM) (name : String) : Nat :=
  match m.GetNamespace name with
  | some ns => ns.namespaceChangeIndex
  | none => 0

/-! ## Keep-session reload handling (session.go lines 281-408)

The Run-loop fragment after a successful packet read: clearKsConns, then
execCommand (which answers ErrTxNsChanged instead of dispatching when
shouldClearKsAndCloseSession holds), then the response write, then the
close decision — Go re-evaluates shouldClearKsAndCloseSession at line 317
on the executor state AFTER the dispatch ran, so a command that itself
enters a transaction (BEGIN) changes the outcome of that check.  The
namespace change index observed during the iteration is the parameter
`curIdx`; the snapshot taken before the read is `snapshot`.
executor.ExecuteCommand is external to these files, so its effect on the
executor state is passed in as a function `executeCmd` of the command
byte and the state (the packet payload is opaque here), and its response
is the opaque dispatch result. -/

/-- The keep-session slice of SessionExecutor state.  The keepSession
field is modelled from the spec: IsKeepSession (defined in the executor
file outside the embedded set) reports whether the namespace declares
keep-session for this client. -/
structure ExecKsState where
  status : Nat
  keepSession : Bool
  ksConns : List (String × Nat)
deriving DecidableEq, Repr

/-- Modelled from the spec: SessionExecutor.isInTransaction (executor
file outside the embedded set) holds exactly when the IN_TRANS bit of the
status bitmask is set. -/
def isInTransaction (se : ExecKsState) : Bool :=
  se.status &&& ServerStatusInTrans != 0

/-- The close-then-recycle trace the clearKsConns loop produces over the
cached keep-session connections, in map order. -/
def closeAndRecycleEvents (conns : List (String × Nat)) : List ConnEvent :=
  conns.foldr (fun kv acc => ConnEvent.close kv.2 :: ConnEvent.recycle kv.2 :: acc) []

/-- Embedding of Session.clearKsConns (session.go lines 384-393): when
the client keeps sessions, the namespace change index moved past the
snapshot, and the client is not mid-transaction, every cached connection
is closed and recycled and ksConns becomes a fresh empty map; otherwise
nothing happens. -/
def clearKsConns (se : ExecKsState) (curIdx snapshot : Nat) :
    ExecKsState × List ConnEvent :=
  if se.keepSession && decide (curIdx > snapshot) && !(isInTransaction se) then
    ({ se with ksConns := [] }, closeAndRecycleEvents se.ksConns)
  else
    (se, [])

/-- Embedding of Session.shouldClearKsAndCloseSession (session.go lines
395-398). -/
def shouldClearKsAndCloseSession (se : ExecKsState) (curIdx snapshot : Nat) : Bool :=
  se.keepSession && isInTransaction se && decide (curIdx > snapshot)

/-- The mysql.ComQuit command byte. -/
def ComQuit : Nat := 0x01

/-- Response produced by Session.execCommand: either the error response
CreateErrorResponse(status, mysql.ErrTxNsChanged), or the opaque result
of executor.ExecuteCommand. -/
inductive RespC1 where
  | errTxNsChanged (status : Nat)
  | executedCmd
deriving DecidableEq, Repr

/-- Embedding of Session.execCommand (session.go lines 400-408): when
shouldClearKsAndCloseSession holds, ExecuteCommand is not run and the
executor state is untouched; otherwise the dispatch runs and may change
the executor state (acquire ksConns, enter or leave a transaction). -/
def execCommand (executeCmd : Nat → ExecKsState → ExecKsState)
    (se : ExecKsState) (curIdx snapshot cmd : Nat) : ExecKsState × RespC1 :=
  if shouldClearKsAndCloseSession se curIdx snapshot then
    (se, .errTxNsChanged se.status)
  else
    (executeCmd cmd se, .executedCmd)

/-- Result of one Run-loop iteration after a successful read: the
executor state, the connection-event trace, the response handed to
writeResponse, and whether cc.Close() is invoked. -/
structure IterResult where
  exec : ExecKsState
  events : List ConnEvent
  resp : RespC1
  sessionClosed : Bool
deriving DecidableEq, Repr

/-- Embedding of the Run-loop body after ReadEphemeralPacket succeeds
(session.go lines 292-319): clearKsConns against the snapshot, then
execCommand (whose dispatch may change the executor state); when the
response write fails the loop clears ksConns once more — on the
post-dispatch state — and closes the session; otherwise the session
closes exactly when the command was COM_QUIT or
shouldClearKsAndCloseSession holds on the post-dispatch state
(session.go line 317). -/
def runIterAfterRead (executeCmd : Nat → ExecKsState → ExecKsState)
    (se : ExecKsState) (curIdx snapshot cmd : Nat) (writeOk : Bool) : IterResult :=
  let c1 := clearKsConns se curIdx snapshot
  let step := execCommand executeCmd c1.1 curIdx snapshot cmd
  if !writeOk then
    let c2 := clearKsConns step.1 curIdx snapshot
    ⟨c2.1, c1.2 ++ c2.2, step.2, true⟩
  else
    ⟨step.1, c1.2, step.2,
     (cmd == ComQuit) || shouldClearKsAndCloseSession step.1 curIdx snapshot⟩

/-! ## Multi-statement execution (executor_handle.go, doMultiStmts lines 113-150)

doQuery is external to this claim (it runs the planner and backend); it
is passed in as a state-transforming function over the executor status,
producing a result of abstract type R or an error of abstract type E.
Intermediate results are written through
CreateResultResponse(se.status | ServerMoreResultsExists, r, false) and
session.writeResponse, whose failure outcome is supplied by writeErr. -/

/-- The payload of CreateResultResponse: status word, result data and the
binary-protocol flag. -/
structure ResultResponse (R : Type) where
  status : Nat
  data : R
  isBinary : Bool
deriving DecidableEq, Repr

/-- Everything one doMultiStmts run produces: the final executor status,
the intermediate responses written to the client in order, the successive
doQuery results in order, the returned value (an error, or the final
piece's result; Go also returns the partial result next to a write
error), and whether the write-failure path closed the session. -/
structure MultiOutcome (E R : Type) where
  finalStatus : Nat
  written : List (ResultResponse R)
  execResults : List R
  outcome : Except E (Option R)
  closedSession : Bool
deriving Repr

/-- The multi-query loop of doMultiStmts: run doQuery on each piece in
order, abort on the first execution error; for every piece except the
last, write its result with the MORE_RESULTS_EXISTS bit OR-ed into the
current status (closing the session and aborting when the write fails);
the final piece's result is only returned. -/
def doMultiStmtsLoop {E R : Type} (doQuery : Nat → String → Nat × Except E R)
    (writeErr : ResultResponse R → Option E) :
    Nat → List String → MultiOutcome E R
  | st, [] => ⟨st, [], [], .ok none, false⟩
  | st, piece :: rest =>
    let q := doQuery st piece
    match q.2 with
    | .error e => ⟨q.1, [], [], .error e, false⟩
    | .ok r =>
      if rest.isEmpty then ⟨q.1, [], [r], .ok (some r), false⟩
      else
        let response : ResultResponse R := ⟨q.1 ||| ServerMoreResultsExists, r, false⟩
        match writeErr response with
        | some e => ⟨q.1, [response], [r], .error e, true⟩
        | none =>
          let tail := doMultiStmtsLoop doQuery writeErr q.1 rest
          ⟨tail.finalStatus, response :: tail.written, r :: tail.execResults,
           tail.outcome, tail.closedSession⟩

/-- Embedding of SessionExecutor.doMultiStmts: after the early read-buffer
recycle, the statement split (supplied as `pieces`) either degenerates to
a single doQuery on the whole sql or enters the multi-query loop. -/
def doMultiStmts {E R : Type} (doQuery : Nat → String → Nat × Except E R)
    (writeErr : ResultResponse R → Option E) (st : Nat) (sql : String)
    (pieces : List String) : MultiOutcome E R :=
  if pieces.length == 1 then
    let q := doQuery st sql
    match q.2 with
    | .error e => ⟨q.1, [], [], .error e, false⟩
    | .ok r => ⟨q.1, [], [r], .ok (some r), false⟩
  else
    doMultiStmtsLoop doQuery writeErr st pieces

/-! ## Helper lemmas shared by the claim theorems -/

/-- Inserting a binding makes it the one the key resolves to. -/
theorem alistLookup_alistInsert {α : Type} (l : List (String × α)) (k : String) (v : α) :
    alistLookup (alistInsert l k v) k = some v := by
  induction l with
  | nil => simp [alistInsert, alistLookup]
  | cons kv rest ih =>
    by_cases h : kv.1 == k
    · simp [alistInsert, alistLookup, h]
    · simp only [alistInsert, alistLookup, h, if_false, Bool.false_eq_true]
      exact ih

/-- A string has length zero exactly when it is the empty string. -/
theorem string_length_beq_zero (s : String) : (s.length == 0) = (s == "") := by
  cases s with
  | mk data =>
    cases data with
    | nil => rfl
    | cons c cs => simp [String.length, String.ext_iff]

/-- Setting a bit by OR leaves the corresponding AND-mask non-zero, for
the single-bit masks used by the status word. -/
theorem or_bit_and_ne_zero (s : Nat) (b i : Nat) (hb : Nat.testBit b i = true) :
    (s ||| b) &&& b ≠ 0 := by
  intro h
  have h2 := congrArg (fun x => Nat.testBit x i) h
  simp only [Nat.testBit_and, Nat.testBit_or, Nat.zero_testBit, hb,
    Bool.and_true, Bool.or_true, Bool.true_and] at h2
  exact absurd h2 (by decide)

/-- Every connection of the map shows up as a recycle event in the
handleSetAutoCommit trace. -/
theorem recycle_mem_setac_trace (setACOk : Nat → Bool) (conns : List (String × Nat))
    (kv : String × Nat) (hkv : kv ∈ conns) :
    ConnEvent.recycle kv.2 ∈
      conns.foldr (fun kv acc =>
        ConnEvent.setAutoCommit kv.2 (setACOk kv.2) :: ConnEvent.recycle kv.2 :: acc) [] := by
  induction conns with
  | nil => cases hkv
  | cons hd tl ih =>
    rcases List.mem_cons.mp hkv with h | h
    · subst h
      simp [List.foldr]
    · simp only [List.foldr, List.mem_cons]
      exact Or.inr (Or.inr (ih h))

/-! ## Claim C2 — QPS limiter outcomes -/

/-- Claim C2, counterexample: with clientQPSLimit = 1, supportLimitTx
true, the session not in a transaction and the bucket empty, handleQuery
answers ErrClientQpsLimited (without close) instead of letting the query
execute, refuting the claim branch that says every case other than its
two error cases is allowed to execute. -/
theorem c2_counterexample :
    handleQueryQpsGate 1 true false false = QpsOutcome.plainErr ∧
    handleQueryQpsGate 1 true false false ≠ QpsOutcome.executed := by
  constructor <;> decide

/-- Claim C2 (amended): with clientQPSLimit > 0 and the bucket empty, an
in-transaction query under supportLimitTx fails with the session-close
ErrClientQpsLimited; a non-transaction query fails with the plain
ErrClientQpsLimited whether supportLimitTx is set or not; every other
case (limit disabled, bucket non-empty, or in-transaction without
supportLimitTx) executes. -/
theorem c2_qps_gate (limit : Int) (sTx inTx allow : Bool) :
    (limit > 0 → sTx = true → inTx = true → allow = false →
      handleQueryQpsGate limit sTx inTx allow = QpsOutcome.sessionCloseErr) ∧
    (limit > 0 → sTx = true → inTx = false → allow = false →
      handleQueryQpsGate limit sTx inTx allow = QpsOutcome.plainErr) ∧
    (limit > 0 → sTx = false → inTx = false → allow = false →
      handleQueryQpsGate limit sTx inTx allow = QpsOutcome.plainErr) ∧
    (¬ limit > 0 ∨ allow = true ∨ (sTx = false ∧ inTx = true) →
      handleQueryQpsGate limit sTx inTx allow = QpsOutcome.executed) := by
  unfold handleQueryQpsGate
  by_cases h : limit > 0 <;>
    cases sTx <;> cases inTx <;> cases allow <;> simp [h]

/-- Claim C2 witness: the amended theorem applied at limit 1, in
transaction, supportLimitTx on, empty bucket. -/
theorem c2_qps_gate_witness :
    handleQueryQpsGate 1 true true false = QpsOutcome.sessionCloseErr :=
  (c2_qps_gate 1 true true false).1 (by decide) rfl rfl rfl

/-! ## Claim C7 — client connection cap -/

/-- Claim C7: with a counter entry at or above maxClientConnections the
handshake fails with ER_CON_COUNT; with no counter entry yet, or a value
below the limit, the handshake is not rejected for the connection-cap
reason. -/
theorem c7_connection_cap (counter : Option Int) (maxC : Int) :
    (∀ v, counter = some v → v ≥ maxC →
      handshakeCapStage counter maxC = CapCheckResult.errConCount) ∧
    (counter = none → handshakeCapStage counter maxC = CapCheckResult.proceed) ∧
    (∀ v, counter = some v → v < maxC →
      handshakeCapStage counter maxC = CapCheckResult.proceed) := by
  refine ⟨?_, ?_, ?_⟩
  · intro v hv hge
    subst hv
    simp [handshakeCapStage, clientConnectionReachLimit, hge]
  · intro hn
    subst hn
    simp [handshakeCapStage, clientConnectionReachLimit]
  · intro v hv hlt
    subst hv
    simp [handshakeCapStage, clientConnectionReachLimit, not_le.mpr hlt]

/-- Claim C7 witness: the cap theorem applied with counter 5 and limit 3,
and with a missing counter entry. -/
theorem c7_connection_cap_witness :
    handshakeCapStage (some 5) 3 = CapCheckResult.errConCount ∧
    handshakeCapStage none 3 = CapCheckResult.proceed :=
  ⟨(c7_connection_cap (some 5) 3).1 5 rfl (by decide),
   (c7_connection_cap none 3).2.1 rfl⟩

/-! ## Claim C5 — SET autocommit=1 -/

/-- Claim C5: after handleSetAutoCommit(true), txConns is the fresh empty
map, the IN_TRANS bit is clear, the AUTOCOMMIT bit is set, and the trace
contains a Recycle call for every connection that was in txConns. -/
theorem c5_autocommit_clears_tx (setACOk : Nat → Bool) (se : ExecTxState) :
    (handleSetAutoCommit setACOk se true).1.txConns = [] ∧
    (handleSetAutoCommit setACOk se true).1.status &&& ServerStatusInTrans = 0 ∧
    (handleSetAutoCommit setACOk se true).1.status &&& ServerStatusAutocommit ≠ 0 ∧
    (∀ kv ∈ se.txConns,
      ConnEvent.recycle kv.2 ∈ (handleSetAutoCommit setACOk se true).2.1) := by
  refine ⟨rfl, ?_, ?_, ?_⟩
  · show (if (se.status ||| 2) &&& 1 > 0 then (se.status ||| 2) &&& 0xFFFE
         else se.status ||| 2) &&& 1 = 0
    by_cases h : (se.status ||| 2) &&& 1 > 0
    · rw [if_pos h, Nat.and_assoc]
      norm_num
    · rw [if_neg h]
      omega
  · show (if (se.status ||| 2) &&& 1 > 0 then (se.status ||| 2) &&& 0xFFFE
         else se.status ||| 2) &&& 2 ≠ 0
    by_cases h : (se.status ||| 2) &&& 1 > 0
    · rw [if_pos h]
      intro hz
      have h2 := congrArg (fun x => Nat.testBit x 1) hz
      simp only [Nat.testBit_and, Nat.testBit_or, Nat.zero_testBit,
        (by decide : Nat.testBit 2 1 = true),
        (by decide : Nat.testBit 65534 1 = true), Bool.and_true, Bool.or_true,
        Bool.true_and] at h2
      exact absurd h2 (by decide)
    · rw [if_neg h]
      exact or_bit_and_ne_zero se.status 2 1 (by decide)
  · intro kv hkv
    exact recycle_mem_setac_trace setACOk se.txConns kv hkv

/-- Claim C5 witness: the autocommit theorem applied to a state holding
one transaction connection with id 5. -/
theorem c5_autocommit_clears_tx_witness :
    (handleSetAutoCommit (fun _ => true) ⟨1, [("slice-0", 5)]⟩ true).1.txConns = [] ∧
    ConnEvent.recycle 5 ∈
      (handleSetAutoCommit (fun _ => true) ⟨1, [("slice-0", 5)]⟩ true).2.1 := by
  have h := c5_autocommit_clears_tx (fun _ => true) ⟨1, [("slice-0", 5)]⟩
  exact ⟨h.1, h.2.2.2 ("slice-0", 5) (by simp)⟩

/-! ## Claim C9 — Close idempotence -/

/-- Claim C9: Session.Close on an already-closed session performs no
action and leaves the state untouched; any Close leaves IsClosed true;
hence Close after Close equals a single Close. -/
theorem c9_close_idempotent {α : Type} (rollback ksQuit : α → α) (s : SessionM α) :
    (SessionM.Close rollback ksQuit s).1.IsClosed = true ∧
    (s.IsClosed = true → SessionM.Close rollback ksQuit s = (s, [])) ∧
    SessionM.Close rollback ksQuit (SessionM.Close rollback ksQuit s).1 =
      ((SessionM.Close rollback ksQuit s).1, []) := by
  unfold SessionM.Close SessionM.IsClosed
  by_cases h : s.closed <;> simp [h]

/-- Claim C9 witness: the idempotence theorem applied to a live session
with a Nat executor state, and its already-closed conclusion at a closed
session. -/
theorem c9_close_idempotent_witness :
    (SessionM.Close id id (⟨false, 0, false⟩ : SessionM Nat)).1.IsClosed = true ∧
    SessionM.Close id id (⟨true, 7, true⟩ : SessionM Nat) = (⟨true, 7, true⟩, []) :=
  ⟨(c9_close_idempotent id id ⟨false, 0, false⟩).1,
   (c9_close_idempotent id id ⟨true, 7, true⟩).2.1 rfl⟩

/-! ## Claim C6 — commit requires an outstanding prepare -/

/-- Claim C6: ReloadNamespaceCommit fails with the NotPrepared error and
leaves the whole manager untouched when no prepare is outstanding; when
one is outstanding it succeeds, clears reloadPrepared, flips the active
slot index exactly once and leaves all four slots as they were. -/
theorem c6_commit_iff_prepared (m : ManagerM) (name : String) :
    (m.reloadPrepared = false →
      m.ReloadNamespaceCommit name = (.error .notPrepared, m)) ∧
    (m.reloadPrepared = true →
      (m.ReloadNamespaceCommit name).1 = .ok () ∧
      (m.ReloadNamespaceCommit name).2.reloadPrepared = false ∧
      (m.ReloadNamespaceCommit name).2.switchIndex = !m.switchIndex ∧
      (m.ReloadNamespaceCommit name).2.namespaces0 = m.namespaces0 ∧
      (m.ReloadNamespaceCommit name).2.namespaces1 = m.namespaces1 ∧
      (m.ReloadNamespaceCommit name).2.users0 = m.users0 ∧
      (m.ReloadNamespaceCommit name).2.users1 = m.users1) := by
  unfold ManagerM.ReloadNamespaceCommit
  by_cases h : m.reloadPrepared <;> simp [h]

/-- Claim C6 witness: the commit theorem at a prepared one-namespace
manager and at the same manager with the flag down. -/
theorem c6_commit_iff_prepared_witness :
    (ManagerM.ReloadNamespaceCommit
        ⟨true, false, [("ns1", ⟨"ns1", 1⟩)], [], ⟨[], []⟩, ⟨[], []⟩⟩ "ns1").1 =
      .ok () ∧
    ManagerM.ReloadNamespaceCommit
        ⟨false, false, [("ns1", ⟨"ns1", 1⟩)], [], ⟨[], []⟩, ⟨[], []⟩⟩ "ns1" =
      (.error .notPrepared, ⟨false, false, [("ns1", ⟨"ns1", 1⟩)], [], ⟨[], []⟩, ⟨[], []⟩⟩) :=
  ⟨((c6_commit_iff_prepared ⟨true, false, [("ns1", ⟨"ns1", 1⟩)], [], ⟨[], []⟩, ⟨[], []⟩⟩
      "ns1").2 rfl).1,
   (c6_commit_iff_prepared ⟨false, false, [("ns1", ⟨"ns1", 1⟩)], [], ⟨[], []⟩, ⟨[], []⟩⟩
      "ns1").1 rfl⟩

/-! ## Claim C4 — reload change index -/

/-- Claim C4, counterexample: namespaceChangeIndex is a Go uint32, so a
prepare over a namespace whose index is 4294967295 wraps to 0; the
surviving index is not strictly greater than the replaced one. -/
theorem c4_counterexample :
    (ManagerM.reloadStep
        ⟨false, false, [("ns1", ⟨"ns1", 4294967295⟩)], [], ⟨[], []⟩, ⟨[], []⟩⟩
        ⟨"ns1", []⟩).GetNamespace "ns1" = some ⟨"ns1", 0⟩ ∧
    ¬ (4294967295 : Nat) < 0 := by
  constructor
  · rfl
  · decide

/-- Claim C4 (amended): a prepare followed by a commit leaves the
surviving namespace at change index (old + 1) mod 2^32 — old + 1 exactly,
hence strictly greater, whenever the replaced index is below 2^32 - 1
(and 1 when the namespace did not previously exist, since the old index
defaults to 0); so change indices strictly increase across reload
sequences until a uint32 wrap. -/
theorem c4_reload_change_index (m : ManagerM) (cfg : NamespaceConfig) :
    (m.reloadStep cfg).GetNamespace cfg.name =
      some ⟨cfg.name, (m.changeIndexOf cfg.name + 1) % uint32Mod⟩ ∧
    (m.changeIndexOf cfg.name < uint32Mod - 1 →
      m.changeIndexOf cfg.name < (m.reloadStep cfg).changeIndexOf cfg.name) := by
  have hstep : (m.reloadStep cfg).GetNamespace cfg.name =
      some ⟨cfg.name, (m.changeIndexOf cfg.name + 1) % uint32Mod⟩ := by
    unfold ManagerM.reloadStep ManagerM.ReloadNamespacePrepare
      ManagerM.ReloadNamespaceCommit ManagerM.changeIndexOf ManagerM.GetNamespace
    cases hsw : m.switchIndex <;>
      simp [ManagerM.setOtherNamespaces, ManagerM.setOtherUsers,
        ManagerM.currentNamespaces, hsw, alistLookup_alistInsert, newNamespace]
  refine ⟨hstep, ?_⟩
  intro hlt
  have hM : uint32Mod = 4294967296 := rfl
  have hr : (m.reloadStep cfg).changeIndexOf cfg.name =
      (m.changeIndexOf cfg.name + 1) % uint32Mod := by
    unfold ManagerM.changeIndexOf
    rw [hstep]
    rfl
  rw [hr, Nat.mod_eq_of_lt (by omega)]
  omega

/-- Claim C4 witness: the amended theorem at a one-namespace manager at
index 5, which the reload moves to 6. -/
theorem c4_reload_change_index_witness :
    (ManagerM.reloadStep ⟨false, false, [("ns1", ⟨"ns1", 5⟩)], [], ⟨[], []⟩, ⟨[], []⟩⟩
        ⟨"ns1", []⟩).GetNamespace "ns1" = some ⟨"ns1", 6⟩ ∧
    (5 : Nat) <
      (ManagerM.reloadStep ⟨false, false, [("ns1", ⟨"ns1", 5⟩)], [], ⟨[], []⟩, ⟨[], []⟩⟩
        ⟨"ns1", []⟩).changeIndexOf "ns1" := by
  have h := c4_reload_change_index
    ⟨false, false, [("ns1", ⟨"ns1", 5⟩)], [], ⟨[], []⟩, ⟨[], []⟩⟩ ⟨"ns1", []⟩
  exact ⟨h.1, h.2 (by decide)⟩

/-! ## Claim C1 — keep-session reload rule -/

/-- Claim C1, counterexample: a session that is mid-transaction but not
in keep-session mode observes a namespace swap (snapshot 0, current index
1) and is neither answered ErrTxNsChanged nor closed — the command
dispatches normally (here a dispatch with no state effect) — so the claim
as stated (for every session) fails; the code guards both branches with
IsKeepSession. -/
theorem c1_counterexample :
    isInTransaction ⟨1, false, []⟩ = true ∧
    (1 : Nat) > 0 ∧
    runIterAfterRead (fun _ s => s) ⟨1, false, []⟩ 1 0 3 true =
      ⟨⟨1, false, []⟩, [], RespC1.executedCmd, false⟩ := by
  decide

/-- Claim C1 (amended): for every keep-session session whose snapshot is
behind the current namespace change index, when the response write
succeeds: mid-transaction, ExecuteCommand is not run, the command is
answered with the ErrTxNsChanged error response and the session is closed
with the executor untouched; not mid-transaction, every cached ksConns
connection is closed and recycled and the ksConns map becomes empty
before the command dispatches normally, and the session is then closed
exactly when the command was COM_QUIT or the dispatch itself left the
client keep-session and mid-transaction (the post-dispatch check at
session.go line 317, which fires for example on BEGIN); in particular a
non-COM_QUIT command whose dispatch does not leave the client
mid-transaction keeps the session open. -/
theorem c1_keep_session_reload (executeCmd : Nat → ExecKsState → ExecKsState)
    (se : ExecKsState) (curIdx snapshot cmd : Nat)
    (hks : se.keepSession = true) (hidx : curIdx > snapshot) :
    (isInTransaction se = true →
      runIterAfterRead executeCmd se curIdx snapshot cmd true =
        ⟨se, [], RespC1.errTxNsChanged se.status, true⟩) ∧
    (isInTransaction se = false →
      (runIterAfterRead executeCmd se curIdx snapshot cmd true).exec =
        executeCmd cmd { se with ksConns := [] } ∧
      (runIterAfterRead executeCmd se curIdx snapshot cmd true).events =
        closeAndRecycleEvents se.ksConns ∧
      (runIterAfterRead executeCmd se curIdx snapshot cmd true).resp =
        RespC1.executedCmd ∧
      (runIterAfterRead executeCmd se curIdx snapshot cmd true).sessionClosed =
        ((cmd == ComQuit) ||
          shouldClearKsAndCloseSession (executeCmd cmd { se with ksConns := [] })
            curIdx snapshot) ∧
      (isInTransaction (executeCmd cmd { se with ksConns := [] }) = false →
        cmd ≠ ComQuit →
        (runIterAfterRead executeCmd se curIdx snapshot cmd true).sessionClosed =
          false)) := by
  obtain ⟨st, ks, conns⟩ := se
  dsimp only at hks
  subst hks
  constructor
  · intro htx
    unfold runIterAfterRead clearKsConns execCommand shouldClearKsAndCloseSession
    simp [hidx, htx]
  · intro htx
    have hsc : shouldClearKsAndCloseSession ⟨st, true, []⟩ curIdx snapshot = false := by
      unfold shouldClearKsAndCloseSession isInTransaction
      unfold isInTransaction at htx
      simp_all
    unfold runIterAfterRead clearKsConns execCommand
    simp only [hidx, htx, Bool.not_false, Bool.and_true, Bool.true_and,
      decide_eq_true_eq, decide_True, if_true, Bool.not_true, Bool.and_false,
      if_false, hsc]
    refine ⟨?_, ?_, ?_, ?_, ?_⟩
    · simp [hsc]
    · simp [hsc]
    · simp [hsc]
    · simp [hsc]
    · intro hpost hq
      simp only [hsc, Bool.false_eq_true, if_false]
      unfold shouldClearKsAndCloseSession
      simp [hpost, hq]

/-- Claim C1 witness: the amended theorem at a keep-session executor
holding one cached connection, outside a transaction, for snapshot 1 and
current index 2 with a COM_QUERY command whose dispatch stashes a fresh
keep-session connection without entering a transaction. -/
theorem c1_keep_session_reload_witness :
    (runIterAfterRead (fun _ s => { s with ksConns := [("slice-0", 9)] })
        ⟨0, true, [("slice-0", 7)]⟩ 2 1 3 true).exec =
      { status := 0, keepSession := true, ksConns := [("slice-0", 9)] } ∧
    (runIterAfterRead (fun _ s => { s with ksConns := [("slice-0", 9)] })
        ⟨0, true, [("slice-0", 7)]⟩ 2 1 3 true).events =
      closeAndRecycleEvents [("slice-0", 7)] ∧
    (runIterAfterRead (fun _ s => { s with ksConns := [("slice-0", 9)] })
        ⟨0, true, [("slice-0", 7)]⟩ 2 1 3 true).sessionClosed = false := by
  have h := c1_keep_session_reload (fun _ s => { s with ksConns := [("slice-0", 9)] })
    ⟨0, true, [("slice-0", 7)]⟩ 2 1 3 rfl (by decide)
  have h2 := h.2 rfl
  exact ⟨h2.1, h2.2.1, h2.2.2.2.2 (by decide) (by decide)⟩

/-! ## Claim C3 — authentication scheme selection -/

/-- A single attempted scheme: trying it and answering by its success bit
is the same as filtering the one-element attempt list. -/
theorem auth_outcome_single (r : Bool × String) :
    (if !r.1 then AuthOutcome.accessDenied else AuthOutcome.accepted r.2) =
      (match [r].find? (fun x => x.1) with
       | some x => AuthOutcome.accepted x.2
       | none => AuthOutcome.accessDenied) := by
  obtain ⟨b, p⟩ := r
  cases b <;> simp [List.find?]

/-- Two attempted schemes with fallback: the source's try-then-fallback
shape equals the first accepting element of the two-element attempt
list. -/
theorem auth_outcome_double (r1 r2 : Bool × String) :
    (if !(if !r1.1 then r2 else r1).1 then AuthOutcome.accessDenied
     else AuthOutcome.accepted (if !r1.1 then r2 else r1).2) =
      (match [r1, r2].find? (fun x => x.1) with
       | some x => AuthOutcome.accepted x.2
       | none => AuthOutcome.accessDenied) := by
  obtain ⟨b1, p1⟩ := r1
  obtain ⟨b2, p2⟩ := r2
  cases b1 <;> cases b2 <;> simp [List.find?]

/-- Claim C3: the authentication cascade of handleHandshakeResponse
coincides, for every user-manager state, hash primitive, user, plugin
name, salt and auth response, with the specified contract — unknown user
denied; plugin empty with a 32-byte auth response tries the SHA-256
caching scheme; plugin empty otherwise tries native-hash then classic;
caching_sha2_password tries SHA-256; anything else tries classic; denied
when no scheme accepts. -/
theorem c3_auth_scheme_order (fns : AuthFns) (u : UserManagerM)
    (user plugin : String) (salt auth : List Nat) :
    handleHandshakeAuth fns u user plugin salt auth =
      authContract fns u user plugin salt auth := by
  unfold handleHandshakeAuth authContract
  cases hu : u.CheckUser user
  · simp
  · rw [string_length_beq_zero]
    simp only [Bool.not_true, if_false, Bool.false_eq_true]
    cases hp : plugin == ""
    · simp only [Bool.false_and, if_false, Bool.false_eq_true]
      cases hc : plugin == CachingSHA2Password
      · simp only [if_false, Bool.false_eq_true]
        exact auth_outcome_single _
      · simp only [if_true]
        exact auth_outcome_single _
    · simp only [Bool.true_and, if_true]
      cases ha : auth.length == 32
      · simp only [if_false, Bool.false_eq_true]
        exact auth_outcome_double _ _
      · simp only [if_true]
        exact auth_outcome_single _

/-! ## Claim C8 — multi-statement execution -/

/-- Prepending to a non-empty list does not change its last element. -/
theorem getLast?_cons_of_ne_nil {α : Type} (a : α) (l : List α) (h : l ≠ []) :
    (a :: l).getLast? = l.getLast? := by
  cases l with
  | nil => exact absurd rfl h
  | cons b bs => simp [List.getLast?_cons_cons]

/-- Facts about one run of the multi-query loop when every write succeeds
and the outcome is a final result: as many execution results as pieces,
the written responses carry exactly the non-final results in order, every
written response has the MORE_RESULTS_EXISTS bit set, the returned result
is the last execution result, and the session was not closed. -/
theorem c8_loop_facts {E R : Type} (doQuery : Nat → String → Nat × Except E R)
    (writeErr : ResultResponse R → Option E) (hw : ∀ resp, writeErr resp = none) :
    ∀ (pieces : List String) (st : Nat) (r : R), pieces ≠ [] →
      (doMultiStmtsLoop doQuery writeErr st pieces).outcome = .ok (some r) →
      (doMultiStmtsLoop doQuery writeErr st pieces).execResults.length = pieces.length ∧
      (doMultiStmtsLoop doQuery writeErr st pieces).written.map (fun w => w.data) =
        (doMultiStmtsLoop doQuery writeErr st pieces).execResults.dropLast ∧
      (∀ w ∈ (doMultiStmtsLoop doQuery writeErr st pieces).written,
        w.status &&& ServerMoreResultsExists ≠ 0) ∧
      (doMultiStmtsLoop doQuery writeErr st pieces).execResults.getLast? = some r ∧
      (doMultiStmtsLoop doQuery writeErr st pieces).closedSession = false := by
  intro pieces
  induction pieces with
  | nil => exact fun st r hne _ => absurd rfl hne
  | cons piece rest ih =>
    intro st r _ hok
    simp only [doMultiStmtsLoop] at hok ⊢
    cases hq : (doQuery st piece).2 with
    | error e =>
      rw [hq] at hok
      simp at hok
    | ok r0 =>
      rw [hq] at hok
      by_cases hre : rest = []
      · subst hre
        simp only [List.isEmpty_nil, if_true] at hok ⊢
        simp at hok
        subst hok
        simp
      · have hne2 : rest.isEmpty = false := by
          cases rest with
          | nil => exact absurd rfl hre
          | cons p2 r2 => rfl
        simp only [hne2, Bool.false_eq_true, if_false, hw] at hok ⊢
        obtain ⟨h1, h2, h3, h4, h5⟩ := ih (doQuery st piece).1 r hre hok
        have hexne : (doMultiStmtsLoop doQuery writeErr (doQuery st piece).1 rest).execResults ≠ [] := by
          intro hcon
          rw [hcon] at h1
          exact hre (List.eq_nil_of_length_eq_zero h1.symm)
        refine ⟨by simp [h1], ?_, ?_, ?_, h5⟩
        · simp only [List.map_cons, h2]
          exact (List.dropLast_cons_of_ne_nil hexne).symm
        · intro w hwmem
          rcases List.mem_cons.mp hwmem with hww | hww
          · subst hww
            exact or_bit_and_ne_zero (doQuery st piece).1 ServerMoreResultsExists 3 (by decide)
          · exact h3 w hww
        · rw [getLast?_cons_of_ne_nil r0 _ hexne]
          exact h4

/-- Claim C8: when the namespace allows multi-statements, the client
negotiated them, the split yields more than one piece and every piece
executes without error (and every intermediate write succeeds), each of
the first n-1 results is written in statement order with the
MORE_RESULTS_EXISTS bit OR-ed into the status, the final result is only
returned to the normal write path, and the loop does not close the
session. -/
theorem c8_multi_statement_results {E R : Type}
    (doQuery : Nat → String → Nat × Except E R)
    (writeErr : ResultResponse R → Option E) (st : Nat) (sql : String)
    (pieces : List String) (r : R)
    (hn : pieces.length > 1)
    (hw : ∀ resp, writeErr resp = none)
    (hok : (doMultiStmts doQuery writeErr st sql pieces).outcome = .ok (some r)) :
    (doMultiStmts doQuery writeErr st sql pieces).execResults.length = pieces.length ∧
    (doMultiStmts doQuery writeErr st sql pieces).written.map (fun w => w.data) =
      (doMultiStmts doQuery writeErr st sql pieces).execResults.dropLast ∧
    (∀ w ∈ (doMultiStmts doQuery writeErr st sql pieces).written,
      w.status &&& ServerMoreResultsExists ≠ 0) ∧
    (doMultiStmts doQuery writeErr st sql pieces).execResults.getLast? = some r ∧
    (doMultiStmts doQuery writeErr st sql pieces).closedSession = false := by
  have h1 : (pieces.length == 1) = false := by
    simp only [beq_eq_false_iff_ne, ne_eq]
    omega
  unfold doMultiStmts at hok ⊢
  rw [h1] at hok ⊢
  simp only [Bool.false_eq_true, if_false] at hok ⊢
  refine c8_loop_facts doQuery writeErr hw pieces st r ?_ hok
  intro hcon
  subst hcon
  simp at hn

/-- Claim C8 witness: the multi-statement theorem for two pieces that map
to their lengths, with writes that always succeed; the first result (1)
is written, the second (2) is returned. -/
theorem c8_multi_statement_results_witness :
    (doMultiStmts (fun st p => (st, Except.ok p.length))
        (fun (_ : ResultResponse Nat) => (none : Option Unit)) 0 "a;bb"
        ["a", "bb"]).written.map (fun w => w.data) =
      (doMultiStmts (fun st p => (st, Except.ok p.length))
        (fun (_ : ResultResponse Nat) => (none : Option Unit)) 0 "a;bb"
        ["a", "bb"]).execResults.dropLast ∧
    (doMultiStmts (fun st p => (st, Except.ok p.length))
        (fun (_ : ResultResponse Nat) => (none : Option Unit)) 0 "a;bb"
        ["a", "bb"]).execResults.getLast? = some 2 := by
  have h := c8_multi_statement_results (fun st p => (st, Except.ok p.length))
    (fun (_ : ResultResponse Nat) => (none : Option Unit)) 0 "a;bb" ["a", "bb"] 2
    (by decide) (fun _ => rfl) rfl
  exact ⟨h.2.1, h.2.2.2.1⟩

/-! ## Claim C10 — ClearNamespaceUsers cross-namespace damage -/

/-- Claim C10, evaluation at the failing input: user u has password
"a:b" in ns1 and password "a" in ns2.  ClearNamespaceUsers "ns1" splits
the key "u:a:b" at the first colon, recovering the wrong password "a",
and the removal loop then deletes "a" — the ns2 pair — from the users
map while leaving "a:b" in place; the userNamespaces entry for ("u","a")
still says ns2, so the surviving pair no longer verifies. -/
theorem c10_clear_namespace_users_bug :
    UserManagerM.ClearNamespaceUsers
        ⟨[("u", ["a:b", "a"])], [("u:a:b", "ns1"), ("u:a", "ns2")]⟩ "ns1" =
      ⟨[("u", ["a:b"])], [("u:a", "ns2")]⟩ ∧
    ((alistLookup (UserManagerM.ClearNamespaceUsers
        ⟨[("u", ["a:b", "a"])], [("u:a:b", "ns1"), ("u:a", "ns2")]⟩ "ns1").users
        "u").getD []).contains "a" = false ∧
    (UserManagerM.ClearNamespaceUsers
        ⟨[("u", ["a:b", "a"])], [("u:a:b", "ns1"), ("u:a", "ns2")]⟩
        "ns1").GetNamespaceByUser "u" "a" = "ns2" := by
  refine ⟨?_, ?_, ?_⟩ <;> decide

end Gaea
